import Mathlib

/-!
Shallow embedding of the chain-bot registration wizard (src/main.py).

The Python service keeps a list of conversation records, each a JSON object
with keys id, timestamp, steps, current_step, registration_data, and the
transient keys temp_travel_requirements / temp_accommodation.  The engine is
ConversationManager.process_step, a chain of string comparisons on
current_step; the read path is list_registrations.  We model JSON values with
an inductive Value, dictionaries as association lists (Python dicts preserve
insertion order and update in place, which setKey reproduces), raised Python
exceptions with Fault, and persistence writes with a saved flag on the step
outcome.  All machine integers are modelled as Int/Nat.
-/

/-- JSON-ish value stored in a conversation's registration_data. -/
inductive Value where
  | str (s : String)
  | int (n : Int)
  | obj (fields : List (String × Value))

/-- A Python dict with string keys, as an insertion-ordered association list. -/
abbrev Fields := List (String × Value)

/-- Python dict assignment d[k] = v: update the existing entry in place, else
append at the end. -/
def setKey (l : Fields) (k : String) (v : Value) : Fields :=
  match l with
  | [] => [(k, v)]
  | (k1, v1) :: rest => if k1 = k then (k, v) :: rest else (k1, v1) :: setKey rest k v

/-- Python str.lower() restricted to ASCII text (every input the wizard
compares case-insensitively is ASCII). -/
def pyLower (s : String) : String := String.mk (s.toList.map Char.toLower)

/-- Characters allowed in the local part of the email regex
[a-zA-Z0-9._%+-]. -/
def isLocalChar (c : Char) : Bool :=
  c.isAlphanum || c = '.' || c = '_' || c = '%' || c = '+' || c = '-'

/-- Characters allowed in the domain part of the email regex [a-zA-Z0-9.-]. -/
def isDomainChar (c : Char) : Bool :=
  c.isAlphanum || c = '.' || c = '-'

/-- Backtracking match of the email tail [a-zA-Z0-9.-]+\.[a-zA-Z]\x7b2,\x7d
against the whole character list: some split point has a nonempty domain run,
a literal dot, and an alphabetic tail of length at least two. -/
def matchDomainTld (cs : List Char) : Bool :=
  (List.range cs.length).any fun j =>
    match cs.drop j with
    | '.' :: t =>
        !(cs.take j).isEmpty && (cs.take j).all isDomainChar &&
        decide (2 ≤ t.length) && t.all Char.isAlpha
    | _ => false

/-- ConversationManager.validate_email: re.match of
^[a-zA-Z0-9._%+-]+@[a-zA-Z0-9.-]+\.[a-zA-Z]\x7b2,\x7d$.  The local part is the
maximal run of local characters (the class excludes @), then a literal @ and
the domain/TLD tail. -/
def validate_email (s : String) : Bool :=
  let cs := s.toList
  match cs.dropWhile isLocalChar with
  | '@' :: rest => !(cs.takeWhile isLocalChar).isEmpty && matchDomainTld rest
  | _ => false

/-- Run of 10 to 14 digits filling the rest of the pattern. -/
def digitsRun (cs : List Char) : Bool :=
  decide (10 ≤ cs.length) && decide (cs.length ≤ 14) && cs.all Char.isDigit

/-- ConversationManager.validate_phone: re.match of ^\+?1?\d\x7b10,14\x7d$,
with the backtracking of the optional literal 1 made explicit. -/
def validate_phone (s : String) : Bool :=
  let cs := s.toList
  let cs1 := match cs with
    | '+' :: r => r
    | r => r
  match cs1 with
  | '1' :: r => digitsRun ('1' :: r) || digitsRun r
  | r => digitsRun r

/-- Numeric value of a digit string (most significant first). -/
def digitsVal (cs : List Char) : Nat :=
  cs.foldl (fun a c => a * 10 + (c.toNat - 48)) 0

/-- Gregorian leap-year rule used by Python's datetime. -/
def isLeapYear (y : Nat) : Bool :=
  y % 4 = 0 && (y % 100 ≠ 0 || y % 400 = 0)

/-- Number of days in a month, as enforced by the datetime constructor. -/
def daysInMonth (y m : Nat) : Nat :=
  if m = 2 then (if isLeapYear y then 29 else 28)
  else if m = 4 ∨ m = 6 ∨ m = 9 ∨ m = 11 then 30
  else 31

/-- Split a character list on a separator character, Python str.split style:
splitting the empty list yields one empty group, and adjacent separators
produce empty groups. -/
def splitOnChar (sep : Char) : List Char → List (List Char)
  | [] => [[]]
  | c :: rest =>
      match splitOnChar sep rest with
      | [] => if c = sep then [[], []] else [[c]]
      | g :: gs => if c = sep then [] :: g :: gs else (c :: g) :: gs

/-- ConversationManager.validate_date: datetime.strptime(s, "%d-%m-%Y")
succeeds.  CPython compiles %d to (3[01]|[12]\d|0[1-9]|[1-9]) (one or two
digits, value 1-31), %m to (1[0-2]|0[1-9]|[1-9]) (one or two digits, value
1-12) and %Y to exactly four digits, requires the match to cover the whole
string, and then builds a datetime, which rejects a day beyond the month's
length and a year below MINYEAR = 1.  Since every component is all-digit and
the separators are literal hyphens, a successful match is exactly a split of
the string at its hyphens into three such components. -/
def validate_date (s : String) : Bool :=
  match splitOnChar '-' s.toList with
  | [cd, cm, cy] =>
      cd.all Char.isDigit && cm.all Char.isDigit && cy.all Char.isDigit &&
      (decide (1 ≤ cd.length) && decide (cd.length ≤ 2)) &&
      (decide (1 ≤ cm.length) && decide (cm.length ≤ 2)) &&
      decide (cy.length = 4) &&
      decide (1 ≤ digitsVal cd) &&
      decide (1 ≤ digitsVal cm) && decide (digitsVal cm ≤ 12) &&
      decide (1 ≤ digitsVal cy) &&
      decide (digitsVal cd ≤ daysInMonth (digitsVal cy) (digitsVal cm))
  | _ => false

/-- Whitespace characters stripped by Python's int() before parsing. -/
def isPySpace (c : Char) : Bool :=
  c = ' ' || c = '\t' || c = '\n' || c = '\r' || c = Char.ofNat 11 || c = Char.ofNat 12

/-- Digit run with optional single underscores between digits, as accepted by
Python's int() literal grammar: the list must be nonempty, start and end with
a digit, and every underscore must sit between two digits. -/
def digitsUnd : List Char → Bool
  | [] => false
  | c :: rest => c.isDigit && digitsUndTail c rest
where
  /-- Scan the rest of the run remembering the previous character. -/
  digitsUndTail : Char → List Char → Bool
  | p, [] => p.isDigit
  | p, c :: r => (if c = '_' then p.isDigit else c.isDigit) && digitsUndTail c r

/-- Python int(s) on a string: strip ASCII whitespace, optional sign, then an
underscored digit run; returns none where int() raises ValueError. -/
def pyInt (s : String) : Option Int :=
  let cs := ((s.toList.dropWhile isPySpace).reverse.dropWhile isPySpace).reverse
  let signAndDigits : Int × List Char :=
    match cs with
    | '+' :: r => (1, r)
    | '-' :: r => (-1, r)
    | r => (1, r)
  if digitsUnd signAndDigits.2 then
    some (signAndDigits.1 * (digitsVal (signAndDigits.2.filter fun c => c ≠ '_') : Int))
  else none

/-- Inline count check of the accommodation_people branch: int(s) parses and
the value lies in [lo, hi]; on ValueError (unparsable or out of range) the
branch reports a validation error. -/
def validCount (lo hi : Int) (s : String) : Bool :=
  match pyInt s with
  | none => false
  | some v => !(decide (v < lo) || decide (hi < v))

/-- One conversation record, mirroring the dict built by start_conversation
plus the two transient keys the wizard adds and deletes; an Option none means
the key is absent from the dict. -/
structure Conversation where
  id : String
  timestamp : String
  steps : List String
  current_step : String
  registration_data : Fields
  temp_travel_requirements : Option Fields
  temp_accommodation : Option Fields

/-- Request body of POST /process (pydantic model RegistrationStep). -/
structure RegistrationStep where
  conversation_id : String
  current_step : String
  user_input : Option String

/-- Response dict of process_step; absent keys are none.  Every branch of the
source returns a subset of these keys. -/
structure StepResponse where
  next_step : Option String := none
  next_step_message : Option String := none
  options : Option (List String) := none
  error : Option String := none
  error_step : Option String := none
  registration_data : Option Fields := none
  conversation_id : Option String := none

/-- Exceptions process_step can raise: fastapi HTTPException (status code and
detail), and the uncaught Python faults triggered by a None user_input
reaching re.match / strptime / int (TypeError), .lower() (AttributeError), or
by a missing transient dict key (KeyError). -/
inductive Fault where
  | httpException (status : Nat) (detail : String)
  | typeError
  | attributeError
  | keyError

/-- Result of one process_step call: the returned dict or raised fault, the
conversation record afterwards, and whether _save_conversations ran. -/
structure StepOutcome where
  result : Except Fault StepResponse
  conv : Conversation
  saved : Bool

/-- Age-group choices offered at the age_group step. -/
def ageGroups : List String := ["18-25", "26-40", "41-60", "61+"]

/-- Transport modes accepted (lower-cased) at travel_requirements_mode. -/
def transportModes : List String := ["air", "train", "bus", "car"]

/-- Accommodation choices accepted (case-sensitively) at accommodation_type. -/
def accommodationTypes : List String :=
  ["Dormitory", "Guest House", "Single Room", "Shared Room"]

/-- ConversationManager.process_step on an already looked-up record: the
string-keyed branch chain of src/main.py lines 100-331.  now stands for
datetime.now().isoformat() at the moment of the call. -/
def process_step (now : String) (conv : Conversation) (step : RegistrationStep) :
    StepOutcome :=
  if conv.current_step = "start" then
    { result := .ok { next_step := some "name",
                      next_step_message := some "Enter your full name" },
      conv := { conv with current_step := "name" }, saved := false }
  else if conv.current_step = "name" then
    match step.user_input with
    | none =>
        { result := .ok { error := some "Please enter a valid name (at least 2 characters)",
                          error_step := some "name" }, conv := conv, saved := false }
    | some s =>
        if s = "" ∨ s.length < 2 then
          { result := .ok { error := some "Please enter a valid name (at least 2 characters)",
                            error_step := some "name" }, conv := conv, saved := false }
        else
          { result := .ok { next_step := some "email",
                            next_step_message := some "Enter your email address" },
            conv := { conv with
                      registration_data := setKey conv.registration_data "full_name" (.str s),
                      current_step := "email" },
            saved := false }
  else if conv.current_step = "email" then
    match step.user_input with
    | none => { result := .error .typeError, conv := conv, saved := false }
    | some s =>
        if !validate_email s then
          { result := .ok { error := some "Please enter a valid email address",
                            error_step := some "email" }, conv := conv, saved := false }
        else
          { result := .ok { next_step := some "mobile",
                            next_step_message := some "Enter your mobile number" },
            conv := { conv with
                      registration_data := setKey conv.registration_data "email" (.str s),
                      current_step := "mobile" },
            saved := false }
  else if conv.current_step = "mobile" then
    match step.user_input with
    | none => { result := .error .typeError, conv := conv, saved := false }
    | some s =>
        if !validate_phone s then
          { result := .ok { error := some "Please enter a valid mobile number",
                            error_step := some "mobile" }, conv := conv, saved := false }
        else
          { result := .ok { next_step := some "age_group",
                            next_step_message := some "Select your age group",
                            options := some ageGroups },
            conv := { conv with
                      registration_data := setKey conv.registration_data "mobile" (.str s),
                      current_step := "age_group" },
            saved := false }
  else if conv.current_step = "age_group" then
    match step.user_input with
    | none =>
        { result := .ok { error := some "Invalid age group selection",
                          error_step := some "age_group" }, conv := conv, saved := false }
    | some s =>
        if !ageGroups.contains s then
          { result := .ok { error := some "Invalid age group selection",
                            error_step := some "age_group" }, conv := conv, saved := false }
        else
          { result := .ok { next_step := some "abhyasi_id",
                            next_step_message := some "Enter your Abhyasi ID" },
            conv := { conv with
                      registration_data := setKey conv.registration_data "age_group" (.str s),
                      current_step := "abhyasi_id" },
            saved := false }
  else if conv.current_step = "abhyasi_id" then
    match step.user_input with
    | none =>
        { result := .ok { error := some "Please enter a valid Abhyasi ID",
                          error_step := some "abhyasi_id" }, conv := conv, saved := false }
    | some s =>
        if s = "" ∨ s.length < 4 then
          { result := .ok { error := some "Please enter a valid Abhyasi ID",
                            error_step := some "abhyasi_id" }, conv := conv, saved := false }
        else
          { result := .ok { next_step := some "arrival_date",
                            next_step_message := some "Enter your arrival date (DD-MM-YYYY)" },
            conv := { conv with
                      registration_data := setKey conv.registration_data "abhyasi_id" (.str s),
                      current_step := "arrival_date" },
            saved := false }
  else if conv.current_step = "arrival_date" then
    match step.user_input with
    | none => { result := .error .typeError, conv := conv, saved := false }
    | some s =>
        if !validate_date s then
          { result := .ok { error := some "Please enter a valid date (DD-MM-YYYY format)",
                            error_step := some "arrival_date" }, conv := conv, saved := false }
        else
          { result := .ok { next_step := some "departure_date",
                            next_step_message := some "Enter your departure date (DD-MM-YYYY)" },
            conv := { conv with
                      registration_data := setKey conv.registration_data "arrival_date" (.str s),
                      current_step := "departure_date" },
            saved := false }
  else if conv.current_step = "departure_date" then
    match step.user_input with
    | none => { result := .error .typeError, conv := conv, saved := false }
    | some s =>
        if !validate_date s then
          { result := .ok { error := some "Please enter a valid date (DD-MM-YYYY format)",
                            error_step := some "departure_date" }, conv := conv, saved := false }
        else
          { result := .ok { next_step := some "travel_requirements_confirmation",
                            next_step_message := some "Do you have any travel requirements? (yes/no)" },
            conv := { conv with
                      registration_data := setKey conv.registration_data "departure_date" (.str s),
                      current_step := "travel_requirements_confirmation" },
            saved := false }
  else if conv.current_step = "travel_requirements_confirmation" then
    match step.user_input with
    | none => { result := .error .attributeError, conv := conv, saved := false }
    | some s =>
        if ["yes", "y"].contains (pyLower s) then
          { result := .ok { next_step := some "travel_requirements_mode",
                            next_step_message := some "Select transport mode",
                            options := some ["Air", "Train", "Bus", "Car"] },
            conv := { conv with current_step := "travel_requirements_mode" },
            saved := false }
        else if ["no", "n"].contains (pyLower s) then
          { result := .ok { next_step := some "accommodation_confirmation",
                            next_step_message := some "Do you need accommodation? (yes/no)" },
            conv := { conv with current_step := "accommodation_confirmation" },
            saved := false }
        else
          { result := .ok { error := some "Please answer yes or no",
                            error_step := some "travel_requirements_confirmation" },
            conv := conv, saved := false }
  else if conv.current_step = "travel_requirements_mode" then
    match step.user_input with
    | none => { result := .error .attributeError, conv := conv, saved := false }
    | some s =>
        if !transportModes.contains (pyLower s) then
          { result := .ok { error := some "Invalid transport mode",
                            error_step := some "travel_requirements_mode",
                            options := some transportModes }, conv := conv, saved := false }
        else
          { result := .ok { next_step := some "travel_requirements_location",
                            next_step_message := some "Enter your arrival location" },
            conv := { conv with
                      temp_travel_requirements :=
                        some [("transport_mode", .str (pyLower s))],
                      current_step := "travel_requirements_location" },
            saved := false }
  else if conv.current_step = "travel_requirements_location" then
    match step.user_input with
    | none =>
        { result := .ok { error := some "Please provide arrival location",
                          error_step := some "travel_requirements_location" },
          conv := conv, saved := false }
    | some s =>
        if s = "" then
          { result := .ok { error := some "Please provide arrival location",
                            error_step := some "travel_requirements_location" },
            conv := conv, saved := false }
        else
          match conv.temp_travel_requirements with
          | none => { result := .error .keyError, conv := conv, saved := false }
          | some t =>
              { result := .ok { next_step := some "accommodation_confirmation",
                                next_step_message := some "Do you need accommodation? (yes/no)" },
                conv := { conv with
                          registration_data :=
                            setKey conv.registration_data "travel_requirements"
                              (.obj (setKey t "arrival_location" (.str s))),
                          temp_travel_requirements := none,
                          current_step := "accommodation_confirmation" },
                saved := false }
  else if conv.current_step = "accommodation_confirmation" then
    match step.user_input with
    | none => { result := .error .attributeError, conv := conv, saved := false }
    | some s =>
        if ["yes", "y"].contains (pyLower s) then
          { result := .ok { next_step := some "accommodation_type",
                            next_step_message := some "Select accommodation type",
                            options := some accommodationTypes },
            conv := { conv with current_step := "accommodation_type" },
            saved := false }
        else if ["no", "n"].contains (pyLower s) then
          { result := .ok { next_step := some "confirmation",
                            next_step_message := some "Confirm your registration details",
                            registration_data := some conv.registration_data },
            conv := { conv with current_step := "confirmation" },
            saved := false }
        else
          { result := .ok { error := some "Please answer yes or no",
                            error_step := some "accommodation_confirmation" },
            conv := conv, saved := false }
  else if conv.current_step = "accommodation_type" then
    match step.user_input with
    | none =>
        { result := .ok { error := some "Invalid accommodation type",
                          error_step := some "accommodation_type",
                          options := some accommodationTypes }, conv := conv, saved := false }
    | some s =>
        if !accommodationTypes.contains s then
          { result := .ok { error := some "Invalid accommodation type",
                            error_step := some "accommodation_type",
                            options := some accommodationTypes }, conv := conv, saved := false }
        else
          { result := .ok { next_step := some "accommodation_people",
                            next_step_message := some "Enter number of people for accommodation" },
            conv := { conv with
                      temp_accommodation := some [("type", .str s)],
                      current_step := "accommodation_people" },
            saved := false }
  else if conv.current_step = "accommodation_people" then
    match step.user_input with
    | none => { result := .error .typeError, conv := conv, saved := false }
    | some s =>
        match pyInt s with
        | none =>
            { result := .ok { error := some "Please enter a valid number of people (1-10)",
                              error_step := some "accommodation_people" },
              conv := conv, saved := false }
        | some v =>
            if v < 1 ∨ 10 < v then
              { result := .ok { error := some "Please enter a valid number of people (1-10)",
                                error_step := some "accommodation_people" },
                conv := conv, saved := false }
            else
              match conv.temp_accommodation with
              | none => { result := .error .keyError, conv := conv, saved := false }
              | some t =>
                  { result := .ok { next_step := some "confirmation",
                                    next_step_message := some "Confirm your registration details",
                                    registration_data :=
                                      some (setKey conv.registration_data "accommodation"
                                        (.obj (setKey t "number_of_people" (.int v)))) },
                    conv := { conv with
                              registration_data :=
                                setKey conv.registration_data "accommodation"
                                  (.obj (setKey t "number_of_people" (.int v))),
                              temp_accommodation := none,
                              current_step := "confirmation" },
                    saved := false }
  else if conv.current_step = "confirmation" then
    match step.user_input with
    | none => { result := .error .attributeError, conv := conv, saved := false }
    | some s =>
        if ["yes", "y"].contains (pyLower s) then
          { result := .ok { next_step := some "completed",
                            next_step_message := some "Registration completed successfully!",
                            conversation_id := some conv.id },
            conv := { conv with
                      registration_data :=
                        setKey conv.registration_data "registration_timestamp" (.str now),
                      current_step := "completed" },
            saved := true }
        else
          { result := .ok { next_step := some "cancelled",
                            next_step_message := some "Registration cancelled" },
            conv := { conv with current_step := "cancelled" },
            saved := false }
  else
    { result := .error (.httpException 400 "Invalid conversation state"),
      conv := conv, saved := true }

/-- The record built by start_conversation (fresh uuid and timestamp are
passed in; the dict starts with empty steps and registration_data in state
start). -/
def freshConversation (id timestamp : String) : Conversation :=
  { id := id, timestamp := timestamp, steps := [], current_step := "start",
    registration_data := [], temp_travel_requirements := none,
    temp_accommodation := none }

/-- Record state after a sequence of POST /process calls: fold process_step,
keeping the (possibly unchanged) record each call leaves behind. -/
def runConv (now : String) (conv : Conversation) (steps : List RegistrationStep) :
    Conversation :=
  steps.foldl (fun c st => (process_step now c st).conv) conv

/-- The global store of conversation records. -/
structure ConversationManager where
  conversations : List Conversation

/-- Lookup of the first record with the given id (the next(...) generator in
process_step). -/
def findConv (l : List Conversation) (conversation_id : String) : Option Conversation :=
  l.find? fun c => c.id = conversation_id

/-- Replace the first record with the given id, modelling Python's in-place
mutation of the found dict. -/
def replaceConv (l : List Conversation) (conversation_id : String) (c1 : Conversation) :
    List Conversation :=
  match l with
  | [] => []
  | c :: rest =>
      if c.id = conversation_id then c1 :: rest
      else c :: replaceConv rest conversation_id c1

/-- ConversationManager.process_step at the store level: look the record up by
id (404 when absent), then run the branch chain on it. -/
def process_step_mgr (now : String) (mgr : ConversationManager)
    (conversation_id : String) (step : RegistrationStep) :
    Except Fault StepResponse × ConversationManager × Bool :=
  match findConv mgr.conversations conversation_id with
  | none => (.error (.httpException 404 "Conversation not found"), mgr, false)
  | some conv =>
      let out := process_step now conv step
      (out.result, ⟨replaceConv mgr.conversations conversation_id out.conv⟩, out.saved)

/-- POST /process handler: forwards step.conversation_id and the step body to
the manager; the body's client-supplied current_step is never read. -/
def process_registration_step (now : String) (mgr : ConversationManager)
    (step : RegistrationStep) : Except Fault StepResponse × ConversationManager × Bool :=
  process_step_mgr now mgr step.conversation_id step

/-- Python dict lookup d.get(k): first matching key, none when absent. -/
def getKey (l : Fields) (k : String) : Option Value :=
  match l with
  | [] => none
  | (k1, v) :: rest => if k1 = k then some v else getKey rest k

/-- Sort key used by list_registrations:
x.get("registration_timestamp", "") — the timestamp the engine stamps is
always a string, and a missing key defaults to the empty string. -/
def tsKey (f : Fields) : String :=
  match getKey f "registration_timestamp" with
  | some (.str s) => s
  | _ => ""

/-- Lexicographic comparison of character lists by code point, the order
CPython uses to compare str values. -/
def lexLe : List Char → List Char → Bool
  | [], _ => true
  | _ :: _, [] => false
  | a :: as, b :: bs => if a < b then true else if b < a then false else lexLe as bs

/-- Python string comparison s1 <= s2. -/
def strLe (a b : String) : Bool := lexLe a.toList b.toList

/-- Comparison passed to the stable sort: ascending on the key, and with
sort_order = "desc" the reversed comparison (Python's reverse=True keeps the
sort stable, so equal keys stay in input order either way). -/
def tsLe (sort_order : String) (a b : Fields) : Bool :=
  if sort_order = "desc" then strLe (tsKey b) (tsKey a) else strLe (tsKey a) (tsKey b)

/-- Python list.sort(key=..., reverse=...) on the projected records: a stable
sort under tsLe (any stable sort computes the same list, so the structurally
recursive insertion sort models CPython's timsort exactly). -/
def pySortByKey (l : List Fields) (sort_order : String) : List Fields :=
  List.insertionSort (fun a b => tsLe sort_order a b = true) l

/-- Clamp one slice endpoint the way Python does for l[a:b]: negative indices
count from the end, then both ends clamp into [0, len]. -/
def sliceBound (n : Nat) (i : Int) : Nat :=
  if i < 0 then (if i + n < 0 then 0 else (i + n).toNat) else min i.toNat n

/-- Python slice l[a:b]. -/
def pySlice {α : Type} (l : List α) (a b : Int) : List α :=
  (l.take (sliceBound l.length b)).drop (sliceBound l.length a)

/-- Projection of the store to the registration_data of completed records
(the list comprehension opening list_registrations). -/
def completedRegs (mgr : ConversationManager) : List Fields :=
  (mgr.conversations.filter fun c => c.current_step = "completed").map
    fun c => c.registration_data

/-- Response dict of GET /registrations. -/
structure RegistrationsResponse where
  registrations : List Fields
  total_count : Nat
  skip : Int
  limit : Int

/-- list_registrations (src/main.py lines 367-400): filter completed records,
project to registration_data, sort by timestamp key when requested, count,
then slice [skip, skip+limit). -/
def list_registrations (mgr : ConversationManager) (skip limit : Int)
    (sort_by sort_order : String) : RegistrationsResponse :=
  let completed := completedRegs mgr
  let sorted := if sort_by = "timestamp" then pySortByKey completed sort_order
                else completed
  { registrations := pySlice sorted skip (skip + limit),
    total_count := sorted.length,
    skip := skip, limit := limit }

/-- Modelled from the spec: the Variant A (minimal) wizard
start → name → email → phone → age_group → meditation_experience →
confirmation → completed/cancelled is part of this repository but its source
file is not under src/ (src/main.py holds only the extended Variant B chain),
so this engine follows spec sections 4.2 and 8: per-state validators ValidName
(length at least 2), ValidEmail, ValidPhone, the age-group choices, an
enumerated meditation-experience choice (choices modelled; the spec names only
the accepted value Intermediate), a case-insensitive yes/y confirmation that
stamps registration_timestamp and flushes, and structured
error/error_step results that leave the record unchanged. -/
def variantA_process_step (now : String) (conv : Conversation) (input : Option String) :
    StepOutcome :=
  if conv.current_step = "start" then
    { result := .ok { next_step := some "name",
                      next_step_message := some "Enter your full name" },
      conv := { conv with current_step := "name" }, saved := false }
  else if conv.current_step = "name" then
    match input with
    | some s =>
        if 2 ≤ s.length then
          { result := .ok { next_step := some "email",
                            next_step_message := some "Enter your email address" },
            conv := { conv with
                      registration_data := setKey conv.registration_data "full_name" (.str s),
                      current_step := "email" }, saved := false }
        else
          { result := .ok { error := some "Please enter a valid name",
                            error_step := some "name" }, conv := conv, saved := false }
    | none =>
        { result := .ok { error := some "Please enter a valid name",
                          error_step := some "name" }, conv := conv, saved := false }
  else if conv.current_step = "email" then
    match input with
    | some s =>
        if validate_email s then
          { result := .ok { next_step := some "phone",
                            next_step_message := some "Enter your phone number" },
            conv := { conv with
                      registration_data := setKey conv.registration_data "email" (.str s),
                      current_step := "phone" }, saved := false }
        else
          { result := .ok { error := some "Please enter a valid email address",
                            error_step := some "email" }, conv := conv, saved := false }
    | none =>
        { result := .ok { error := some "Please enter a valid email address",
                          error_step := some "email" }, conv := conv, saved := false }
  else if conv.current_step = "phone" then
    match input with
    | some s =>
        if validate_phone s then
          { result := .ok { next_step := some "age_group",
                            next_step_message := some "Select your age group",
                            options := some ageGroups },
            conv := { conv with
                      registration_data := setKey conv.registration_data "phone" (.str s),
                      current_step := "age_group" }, saved := false }
        else
          { result := .ok { error := some "Please enter a valid phone number",
                            error_step := some "phone" }, conv := conv, saved := false }
    | none =>
        { result := .ok { error := some "Please enter a valid phone number",
                          error_step := some "phone" }, conv := conv, saved := false }
  else if conv.current_step = "age_group" then
    match input with
    | some s =>
        if ageGroups.contains s then
          { result := .ok { next_step := some "meditation_experience",
                            next_step_message := some "Select your meditation experience",
                            options := some meditationChoices },
            conv := { conv with
                      registration_data := setKey conv.registration_data "age_group" (.str s),
                      current_step := "meditation_experience" }, saved := false }
        else
          { result := .ok { error := some "Invalid age group selection",
                            error_step := some "age_group" }, conv := conv, saved := false }
    | none =>
        { result := .ok { error := some "Invalid age group selection",
                          error_step := some "age_group" }, conv := conv, saved := false }
  else if conv.current_step = "meditation_experience" then
    match input with
    | some s =>
        if meditationChoices.contains s then
          { result := .ok { next_step := some "confirmation",
                            next_step_message := some "Confirm your registration details",
                            registration_data := some (setKey conv.registration_data
                              "meditation_experience" (.str s)) },
            conv := { conv with
                      registration_data := setKey conv.registration_data
                        "meditation_experience" (.str s),
                      current_step := "confirmation" }, saved := false }
        else
          { result := .ok { error := some "Invalid meditation experience selection",
                            error_step := some "meditation_experience" },
            conv := conv, saved := false }
    | none =>
        { result := .ok { error := some "Invalid meditation experience selection",
                          error_step := some "meditation_experience" },
          conv := conv, saved := false }
  else if conv.current_step = "confirmation" then
    match input with
    | some s =>
        if ["yes", "y"].contains (pyLower s) then
          { result := .ok { next_step := some "completed",
                            next_step_message := some "Registration completed successfully!",
                            conversation_id := some conv.id },
            conv := { conv with
                      registration_data :=
                        setKey conv.registration_data "registration_timestamp" (.str now),
                      current_step := "completed" }, saved := true }
        else
          { result := .ok { next_step := some "cancelled",
                            next_step_message := some "Registration cancelled" },
            conv := { conv with current_step := "cancelled" }, saved := false }
    | none =>
        { result := .ok { error := some "Please answer yes or no",
                          error_step := some "confirmation" }, conv := conv, saved := false }
  else
    { result := .error (.httpException 400 "Invalid conversation state"),
      conv := conv, saved := true }
where
  /-- Modelled from the spec: an enumerated choice list for the
  meditation_experience step; the spec fixes only that Intermediate is one of
  the accepted values. -/
  meditationChoices : List String := ["Beginner", "Intermediate", "Advanced"]

/-- Record state after a sequence of Variant A Advance calls. -/
def runConvA (now : String) (conv : Conversation) (inputs : List (Option String)) :
    Conversation :=
  inputs.foldl (fun c i => (variantA_process_step now c i).conv) conv

/-- Formalisation of the spec sentence for ValidDate as claimed: the string is
a calendar date written in DD-MM-YYYY form — two-digit day, two-digit month,
four-digit year, all digits — with month 1-12, year at least 1 (Python's
calendar starts at MINYEAR = 1), and the day bounded by the month and year. -/
def specValidDateClaim (s : String) : Bool :=
  match splitOnChar '-' s.toList with
  | [cd, cm, cy] =>
      cd.all Char.isDigit && cm.all Char.isDigit && cy.all Char.isDigit &&
      (cd.length == 2) &&
      (cm.length == 2) &&
      decide (cy.length = 4) &&
      decide (1 ≤ digitsVal cd) &&
      decide (1 ≤ digitsVal cm) && decide (digitsVal cm ≤ 12) &&
      decide (1 ≤ digitsVal cy) &&
      decide (digitsVal cd ≤ daysInMonth (digitsVal cy) (digitsVal cm))
  | _ => false

/-- The ValidDate spec sentence amended to what the source accepts: the day
and the month may be written with one or two digits (strptime's %d and %m
patterns), the year with exactly four. -/
def specValidDateAmended (s : String) : Bool :=
  match splitOnChar '-' s.toList with
  | [cd, cm, cy] =>
      cd.all Char.isDigit && cm.all Char.isDigit && cy.all Char.isDigit &&
      (cd.length == 1 || cd.length == 2) &&
      (cm.length == 1 || cm.length == 2) &&
      decide (cy.length = 4) &&
      decide (1 ≤ digitsVal cd) &&
      decide (1 ≤ digitsVal cm) && decide (digitsVal cm ≤ 12) &&
      decide (1 ≤ digitsVal cy) &&
      decide (digitsVal cd ≤ daysInMonth (digitsVal cy) (digitsVal cm))
  | _ => false

/-- Per-state validator of the branch chain, for a present user_input: the
exact acceptance test the matching process_step branch applies before
committing a value.  States without a validator (start, confirmation, the
terminal and unknown states) accept everything, so nothing can fail there. -/
def validatorPasses (state : String) (s : String) : Bool :=
  if state = "name" then (if s = "" ∨ s.length < 2 then false else true)
  else if state = "email" then validate_email s
  else if state = "mobile" then validate_phone s
  else if state = "age_group" then ageGroups.contains s
  else if state = "abhyasi_id" then (if s = "" ∨ s.length < 4 then false else true)
  else if state = "arrival_date" then validate_date s
  else if state = "departure_date" then validate_date s
  else if state = "travel_requirements_confirmation" then
    (["yes", "y"].contains (pyLower s) || ["no", "n"].contains (pyLower s))
  else if state = "travel_requirements_mode" then transportModes.contains (pyLower s)
  else if state = "travel_requirements_location" then (if s = "" then false else true)
  else if state = "accommodation_confirmation" then
    (["yes", "y"].contains (pyLower s) || ["no", "n"].contains (pyLower s))
  else if state = "accommodation_type" then accommodationTypes.contains s
  else if state = "accommodation_people" then validCount 1 10 s
  else true

/-- A completed record used to witness the terminal-state behaviour. -/
def convCompleted : Conversation :=
  { id := "idC", timestamp := "t0", steps := [], current_step := "completed",
    registration_data := [("full_name", .str "Jane Doe")],
    temp_travel_requirements := none, temp_accommodation := none }

/-- A record sitting at the confirmation step with one collected field. -/
def convConfirm : Conversation :=
  { id := "id0", timestamp := "t0", steps := [], current_step := "confirmation",
    registration_data := [("full_name", .str "Jane Doe")],
    temp_travel_requirements := none, temp_accommodation := none }

/-- A record sitting at the email step. -/
def convEmail : Conversation :=
  { id := "id1", timestamp := "t1", steps := [], current_step := "email",
    registration_data := [("full_name", .str "Jane Doe")],
    temp_travel_requirements := none, temp_accommodation := none }

/-- A record sitting at the name step. -/
def convNamed : Conversation :=
  { id := "id2", timestamp := "t2", steps := [], current_step := "name",
    registration_data := [], temp_travel_requirements := none,
    temp_accommodation := none }

/-- Fields of an example completed registration with the given timestamp. -/
def exReg (name t : String) : Fields :=
  [("full_name", .str name), ("registration_timestamp", .str t)]

/-- An example completed conversation record. -/
def exCompleted (i name t : String) : Conversation :=
  { id := i, timestamp := "c", steps := [], current_step := "completed",
    registration_data := exReg name t, temp_travel_requirements := none,
    temp_accommodation := none }

/-- A store with five completed registrations (timestamps inserted out of
order) and one still in progress. -/
def exampleMgr : ConversationManager :=
  ⟨[exCompleted "a" "P3" "t3",
    { id := "x", timestamp := "c", steps := [], current_step := "email",
      registration_data := [("full_name", .str "Q")],
      temp_travel_requirements := none, temp_accommodation := none },
    exCompleted "b" "P1" "t1",
    exCompleted "c" "P5" "t5",
    exCompleted "d" "P2" "t2",
    exCompleted "e" "P4" "t4"]⟩

/-- Inputs for a full successful Variant A run, as in the spec's round-trip
example (start takes no input). -/
def variantAExampleInputs : List (Option String) :=
  [none, some "Jane Doe", some "jane@x.com", some "+12025550123", some "26-40",
   some "Intermediate", some "yes"]

/-- States at or after the accommodation_confirmation step: once a record is
in one of these, the branch chain keeps it among them. -/
def postTravelStates : List String :=
  ["accommodation_confirmation", "accommodation_type", "accommodation_people",
   "confirmation", "completed", "cancelled"]

/-- A concrete Variant B run that declines travel requirements at call 8. -/
def exTravelSteps : List RegistrationStep :=
  [⟨"w", "start", none⟩,
   ⟨"w", "name", some "Jane Doe"⟩,
   ⟨"w", "email", some "jane@x.com"⟩,
   ⟨"w", "mobile", some "+12025550123"⟩,
   ⟨"w", "age_group", some "26-40"⟩,
   ⟨"w", "abhyasi_id", some "ABCD"⟩,
   ⟨"w", "arrival_date", some "01-01-2024"⟩,
   ⟨"w", "departure_date", some "02-01-2024"⟩,
   ⟨"w", "travel_requirements_confirmation", some "no"⟩]

/-- Writing one dict key leaves the lookup of any other key unchanged. -/
theorem getKey_setKey_ne (l : Fields) (k1 k2 : String) (v : Value)
    (h : ¬ k1 = k2) : getKey (setKey l k1 v) k2 = getKey l k2 := by
  induction l with
  | nil => simp [setKey, getKey, h]
  | cons p rest ih =>
      obtain ⟨k0, v0⟩ := p
      by_cases hk : k0 = k1
      · subst hk
        simp [setKey, getKey, h]
      · simp [setKey, hk, getKey, ih]

/-- Both encodings of the one-or-two-digit length constraint agree. -/
theorem lenOneTwo (n : Nat) :
    (decide (1 ≤ n) && decide (n ≤ 2)) = (n == 1 || n == 2) := by
  rcases n with _ | _ | _ | m
  · rfl
  · rfl
  · rfl
  · have h1 : ¬ (m + 3 ≤ 2) := by omega
    have h2 : ¬ (m + 3 = 1) := by omega
    have h3 : ¬ (m + 3 = 2) := by omega
    simp [h1, h2, h3]

/-- Writing a dict key makes lookup of that key return the new value. -/
theorem getKey_setKey_self (l : Fields) (k : String) (v : Value) :
    getKey (setKey l k v) k = some v := by
  induction l with
  | nil => simp [setKey, getKey]
  | cons p rest ih =>
      obtain ⟨k0, v0⟩ := p
      by_cases hk : k0 = k
      · subst hk; simp [setKey, getKey]
      · simp [setKey, getKey, hk, ih]

/-- C7 counterexample: the date validator accepts a single-digit day and
month, which is not DD-MM-YYYY form, so the claimed equivalence fails on
"1-1-2024". -/
theorem validate_date_accepts_single_digit_day :
    validate_date "1-1-2024" = true ∧ specValidDateClaim "1-1-2024" = false := by
  exact ⟨by decide, by decide⟩

/-- C7 (amended): the date validator passes a string exactly when it is a
calendar date with the day and month written with one or two digits, a
four-digit year at least 0001, month 1-12, and the day bounded by the length
of the month in that year; in particular it rejects "31-04-2024" and accepts
"30-04-2024". -/
theorem validate_date_characterisation :
    (∀ s : String, validate_date s = specValidDateAmended s) ∧
    validate_date "31-04-2024" = false ∧ validate_date "30-04-2024" = true := by
  refine ⟨fun s => ?_, by decide, by decide⟩
  unfold validate_date specValidDateAmended
  rcases h : splitOnChar '-' s.toList with _ | ⟨a, _ | ⟨b, _ | ⟨c, _ | ⟨d, tl⟩⟩⟩⟩ <;>
    dsimp only
  rw [lenOneTwo, lenOneTwo]

/-- C10: the accommodation_people count check with bounds 1 and 10 passes a
string exactly when Python's int() parses it to a value in [1, 10]; at that
step a parsed in-range value advances the record to confirmation and anything
else does not; and the boundary inputs "0" and "11" fail while "1" and "10"
pass. -/
theorem count_validator_range_characterisation :
    (∀ s : String, validCount 1 10 s = true ↔
        ∃ v : Int, pyInt s = some v ∧ 1 ≤ v ∧ v ≤ 10) ∧
    (∀ (now : String) (conv : Conversation) (step : RegistrationStep) (s : String)
        (t : Fields), conv.current_step = "accommodation_people" →
        step.user_input = some s → conv.temp_accommodation = some t →
        (((process_step now conv step).conv.current_step = "confirmation") ↔
          validCount 1 10 s = true)) ∧
    validCount 1 10 "0" = false ∧ validCount 1 10 "11" = false ∧
    validCount 1 10 "1" = true ∧ validCount 1 10 "10" = true := by
  refine ⟨fun s => ?_, fun now conv step s t hst hin htemp => ?_, by decide, by decide,
    by decide, by decide⟩
  · unfold validCount
    cases hp : pyInt s with
    | none => simp
    | some v =>
        simp only [Bool.not_eq_true', Bool.or_eq_false_iff, decide_eq_false_iff_not,
          not_lt, Option.some.injEq]
        constructor
        · rintro ⟨hl, hr⟩; exact ⟨v, rfl, hl, hr⟩
        · rintro ⟨v1, hv1, hl, hr⟩; cases hv1; exact ⟨hl, hr⟩
  · cases hp : pyInt s with
    | none => simp [process_step, validCount, hst, hin, htemp, hp]
    | some v =>
        by_cases hr : v < 1 ∨ 10 < v
        · simp [process_step, validCount, hst, hin, htemp, hp, hr]
          omega
        · simp [process_step, validCount, hst, hin, htemp, hp, hr]
          omega

/-- C2: advancing a record whose current state is completed or cancelled
falls through the whole branch chain to the HTTPException 400 "Invalid
conversation state", and leaves the record (state and fields) unchanged. -/
theorem terminal_state_advance_fails (now : String) (conv : Conversation)
    (step : RegistrationStep)
    (h : conv.current_step = "completed" ∨ conv.current_step = "cancelled") :
    (process_step now conv step).result =
      .error (.httpException 400 "Invalid conversation state") ∧
    (process_step now conv step).conv = conv := by
  rcases h with h | h <;> simp [process_step, h]

/-- Witness for C2 at a concrete completed record and input. -/
theorem terminal_state_advance_fails_witness :
    (process_step "T" convCompleted ⟨"idC", "completed", some "yes"⟩).result =
      .error (.httpException 400 "Invalid conversation state") ∧
    (process_step "T" convCompleted ⟨"idC", "completed", some "yes"⟩).conv =
      convCompleted :=
  terminal_state_advance_fails "T" convCompleted ⟨"idC", "completed", some "yes"⟩
    (Or.inl rfl)

/-- C9: the outcome of POST /process — returned dict or fault, updated store,
and save flag — depends only on the stored record and the request's
conversation_id and user_input; the client-supplied current_step field is
never read. -/
theorem advance_ignores_client_current_step (now : String)
    (mgr : ConversationManager) (s1 s2 : RegistrationStep)
    (hid : s1.conversation_id = s2.conversation_id)
    (hin : s1.user_input = s2.user_input) :
    process_registration_step now mgr s1 = process_registration_step now mgr s2 := by
  obtain ⟨c1, cs1, u1⟩ := s1
  obtain ⟨c2, cs2, u2⟩ := s2
  simp only at hid hin
  subst hid; subst hin
  rfl

/-- C3 counterexample: confirming with "yes" returns only the completion
message and the conversation id — the response dict has no registration_data
key (none below) even though the record holds collected fields — so the
claim that the full collected fields are returned fails on this input. -/
theorem confirmation_yes_response_omits_fields :
    (process_step "2024-06-01T10:00:00" convConfirm
        ⟨"id0", "confirmation", some "yes"⟩).result =
      Except.ok { next_step := some "completed",
                  next_step_message := some "Registration completed successfully!",
                  conversation_id := some "id0" } ∧
    convConfirm.registration_data = [("full_name", Value.str "Jane Doe")] :=
  ⟨rfl, rfl⟩

/-- C3 (amended): at the confirmation step, an input case-insensitively
matching yes or y sets the state to completed, stamps the registration
timestamp into the fields, flushes to persistence, and returns a completion
response carrying the conversation id but not the collected fields; any other
input sets the state to cancelled without flushing and leaves the fields
(hence any absent registration timestamp) unchanged. -/
theorem confirmation_step_behaviour (now : String) (conv : Conversation)
    (step : RegistrationStep) (s : String)
    (hst : conv.current_step = "confirmation") (hin : step.user_input = some s) :
    ((pyLower s = "yes" ∨ pyLower s = "y") →
      (process_step now conv step).conv.current_step = "completed" ∧
      getKey (process_step now conv step).conv.registration_data
        "registration_timestamp" = some (.str now) ∧
      (process_step now conv step).saved = true ∧
      (process_step now conv step).result =
        .ok { next_step := some "completed",
              next_step_message := some "Registration completed successfully!",
              conversation_id := some conv.id }) ∧
    (¬ (pyLower s = "yes" ∨ pyLower s = "y") →
      (process_step now conv step).conv.current_step = "cancelled" ∧
      (process_step now conv step).conv.registration_data =
        conv.registration_data ∧
      (process_step now conv step).saved = false ∧
      (process_step now conv step).result =
        .ok { next_step := some "cancelled",
              next_step_message := some "Registration cancelled" }) := by
  constructor
  · intro hyes
    simp [process_step, hst, hin, hyes, getKey_setKey_self]
  · intro hno
    simp [process_step, hst, hin, hno]

/-- Witness for C3's amended theorem: declining with "no" at confirmation on
a concrete record cancels without flushing and without touching fields. -/
theorem confirmation_step_behaviour_witness :
    (process_step "T" convConfirm ⟨"id0", "confirmation", some "no"⟩).conv.current_step
        = "cancelled" ∧
    (process_step "T" convConfirm
        ⟨"id0", "confirmation", some "no"⟩).conv.registration_data =
      convConfirm.registration_data ∧
    (process_step "T" convConfirm ⟨"id0", "confirmation", some "no"⟩).saved = false ∧
    (process_step "T" convConfirm ⟨"id0", "confirmation", some "no"⟩).result =
      .ok { next_step := some "cancelled",
            next_step_message := some "Registration cancelled" } :=
  (confirmation_step_behaviour "T" convConfirm ⟨"id0", "confirmation", some "no"⟩
    "no" rfl rfl).2 (by decide)

/-- C8 counterexample: with the record at the email step, an absent
user_input reaches re.match(pattern, None) inside validate_email and raises
TypeError instead of returning a structured validation error, so Advance is
not total over absent input in every non-start state. -/
theorem advance_none_input_faults_in_email :
    (process_step "T" convEmail ⟨"id1", "email", none⟩).result =
      Except.error Fault.typeError :=
  rfl

/-- C8 (amended): with an absent user_input in a non-start state, the
branches whose check is a falsiness or membership test (name, age_group,
abhyasi_id, travel_requirements_location, accommodation_type) return a
structured validation error naming the current state and leave the record
unchanged; the branches that pass the input to re.match, strptime or int
(email, mobile, arrival_date, departure_date, accommodation_people) raise
TypeError; and the branches that call .lower() on the input
(travel_requirements_confirmation, travel_requirements_mode,
accommodation_confirmation, confirmation) raise AttributeError — the record
unchanged in every case. -/
theorem advance_none_input_behaviour (now : String) (conv : Conversation)
    (step : RegistrationStep) (hin : step.user_input = none) :
    (conv.current_step ∈ (["name", "age_group", "abhyasi_id",
        "travel_requirements_location", "accommodation_type"] : List String) →
      ∃ r, (process_step now conv step).result = .ok r ∧ r.error.isSome = true ∧
        r.error_step = some conv.current_step ∧
        (process_step now conv step).conv = conv ∧
        (process_step now conv step).saved = false) ∧
    (conv.current_step ∈ (["email", "mobile", "arrival_date", "departure_date",
        "accommodation_people"] : List String) →
      (process_step now conv step).result = .error .typeError ∧
      (process_step now conv step).conv = conv) ∧
    (conv.current_step ∈ (["travel_requirements_confirmation",
        "travel_requirements_mode", "accommodation_confirmation",
        "confirmation"] : List String) →
      (process_step now conv step).result = .error .attributeError ∧
      (process_step now conv step).conv = conv) := by
  refine ⟨fun hmem => ?_, fun hmem => ?_, fun hmem => ?_⟩
  · simp only [List.mem_cons, List.not_mem_nil, or_false] at hmem
    rcases hmem with h | h | h | h | h <;> simp [process_step, h, hin]
  · simp only [List.mem_cons, List.not_mem_nil, or_false] at hmem
    rcases hmem with h | h | h | h | h <;> simp [process_step, h, hin]
  · simp only [List.mem_cons, List.not_mem_nil, or_false] at hmem
    rcases hmem with h | h | h | h <;> simp [process_step, h, hin]

/-- Witness for C8's amended theorem at a concrete record in the name state:
absent input there yields the structured error naming the name step. -/
theorem advance_none_input_behaviour_witness :
    (convNamed.current_step ∈ (["name", "age_group", "abhyasi_id",
        "travel_requirements_location", "accommodation_type"] : List String)) ∧
    (∃ r, (process_step "T" convNamed ⟨"id2", "name", none⟩).result = .ok r ∧
      r.error.isSome = true ∧ r.error_step = some convNamed.current_step ∧
      (process_step "T" convNamed ⟨"id2", "name", none⟩).conv = convNamed ∧
      (process_step "T" convNamed ⟨"id2", "name", none⟩).saved = false) :=
  ⟨by decide,
   (advance_none_input_behaviour "T" convNamed ⟨"id2", "name", none⟩ rfl).1 (by decide)⟩

/-- C1: whenever a present input fails the validator of the record's current
state, process_step returns a structured result whose error is set, whose
error_step equals the current state, and which does not advance; the record
(state and fields) is unchanged, no save happens, and — the record being
unchanged — repeating the same input from the same state returns the very
same outcome, in particular the same error_step. -/
theorem advance_rejects_invalid_input_immutably (now : String)
    (conv : Conversation) (step : RegistrationStep) (s : String)
    (hin : step.user_input = some s)
    (hfail : validatorPasses conv.current_step s = false) :
    (∃ r, (process_step now conv step).result = .ok r ∧ r.error.isSome = true ∧
      r.error_step = some conv.current_step ∧ r.next_step = none) ∧
    (process_step now conv step).conv = conv ∧
    (process_step now conv step).saved = false ∧
    process_step now ((process_step now conv step).conv) step =
      process_step now conv step := by
  by_cases h1 : conv.current_step = "name"
  · have hc : s = "" ∨ s.length < 2 := by
      by_contra hc; rw [h1] at hfail; simp [validatorPasses, hc] at hfail
    simp [process_step, h1, hin, hc]
  by_cases h2 : conv.current_step = "email"
  · rw [h2] at hfail; simp [validatorPasses] at hfail
    simp [process_step, h2, hin, hfail]
  by_cases h3 : conv.current_step = "mobile"
  · rw [h3] at hfail; simp [validatorPasses] at hfail
    simp [process_step, h3, hin, hfail]
  by_cases h4 : conv.current_step = "age_group"
  · rw [h4] at hfail; simp [validatorPasses] at hfail
    simp [process_step, h4, hin, hfail]
  by_cases h5 : conv.current_step = "abhyasi_id"
  · have hc : s = "" ∨ s.length < 4 := by
      by_contra hc; rw [h5] at hfail; simp [validatorPasses, hc] at hfail
    simp [process_step, h5, hin, hc]
  by_cases h6 : conv.current_step = "arrival_date"
  · rw [h6] at hfail; simp [validatorPasses] at hfail
    simp [process_step, h6, hin, hfail]
  by_cases h7 : conv.current_step = "departure_date"
  · rw [h7] at hfail; simp [validatorPasses] at hfail
    simp [process_step, h7, hin, hfail]
  by_cases h8 : conv.current_step = "travel_requirements_confirmation"
  · rw [h8] at hfail; simp [validatorPasses] at hfail
    simp [process_step, h8, hin, hfail]
  by_cases h9 : conv.current_step = "travel_requirements_mode"
  · rw [h9] at hfail; simp [validatorPasses] at hfail
    simp [process_step, h9, hin, hfail]
  by_cases h10 : conv.current_step = "travel_requirements_location"
  · rw [h10] at hfail; simp [validatorPasses] at hfail
    simp [process_step, h10, hin, hfail]
  by_cases h11 : conv.current_step = "accommodation_confirmation"
  · rw [h11] at hfail; simp [validatorPasses] at hfail
    simp [process_step, h11, hin, hfail]
  by_cases h12 : conv.current_step = "accommodation_type"
  · rw [h12] at hfail; simp [validatorPasses] at hfail
    simp [process_step, h12, hin, hfail]
  by_cases h13 : conv.current_step = "accommodation_people"
  · rw [h13] at hfail; simp [validatorPasses] at hfail
    rcases hp : pyInt s with _ | v
    · simp [process_step, h13, hin, hp]
    · rw [validCount, hp] at hfail
      have hr : v < 1 ∨ 10 < v := by
        rcases Decidable.em (v < 1 ∨ 10 < v) with hr | hr
        · exact hr
        · simp only [hr] at hfail
          simp at hfail
          omega
      simp [process_step, h13, hin, hp, hr]
  exact absurd hfail (by
    simp [validatorPasses, h1, h2, h3, h4, h5, h6, h7, h8, h9, h10, h11, h12, h13])

/-- Witness for C1 at a concrete record in the email state with an input the
email validator rejects. -/
theorem advance_rejects_invalid_input_immutably_witness :
    validatorPasses convEmail.current_step "bad" = false ∧
    ((∃ r, (process_step "T" convEmail ⟨"id1", "email", some "bad"⟩).result = .ok r ∧
        r.error.isSome = true ∧ r.error_step = some convEmail.current_step ∧
        r.next_step = none) ∧
      (process_step "T" convEmail ⟨"id1", "email", some "bad"⟩).conv = convEmail ∧
      (process_step "T" convEmail ⟨"id1", "email", some "bad"⟩).saved = false ∧
      process_step "T" ((process_step "T" convEmail
          ⟨"id1", "email", some "bad"⟩).conv) ⟨"id1", "email", some "bad"⟩ =
        process_step "T" convEmail ⟨"id1", "email", some "bad"⟩) :=
  ⟨by decide,
   advance_rejects_invalid_input_immutably "T" convEmail
     ⟨"id1", "email", some "bad"⟩ "bad" rfl (by decide)⟩

/-- Splitting a take at m: the first m elements and then n more. -/
theorem take_add_split {α : Type} :
    ∀ (l : List α) (m n : Nat), l.take (m + n) = l.take m ++ (l.drop m).take n := by
  intro l
  induction l with
  | nil => intro m n; simp
  | cons a tl ih =>
      intro m n
      cases m with
      | zero => simp
      | succ m0 =>
          simp only [Nat.succ_add, List.take_succ_cons, List.drop_succ_cons,
            List.cons_append, ih]

/-- The clamped Python slice [sa, sa+sb) equals drop-then-take. -/
theorem slice_take_drop {α : Type} (l : List α) (sa sb : Nat) :
    (l.take (min (sa + sb) l.length)).drop (min sa l.length) =
      (l.drop sa).take sb := by
  by_cases h : sa ≤ l.length
  · have ht : l.take (min (sa + sb) l.length) = l.take (sa + sb) := by
      rcases le_total (sa + sb) l.length with h2 | h2
      · rw [Nat.min_eq_left h2]
      · rw [Nat.min_eq_right h2, List.take_length, List.take_of_length_le h2]
    have hlen : (l.take sa).length = sa := by
      rw [List.length_take, Nat.min_eq_left h]
    rw [ht, Nat.min_eq_left h, take_add_split]
    have hd := List.drop_left (l.take sa) ((l.drop sa).take sb)
    rw [hlen] at hd
    exact hd
  · push_neg at h
    rw [Nat.min_eq_right (le_of_lt h)]
    rw [List.drop_of_length_le (by
      rw [List.length_take]
      exact min_le_right _ _)]
    rw [List.drop_of_length_le (le_of_lt h), List.take_nil]

/-- With nonnegative endpoints the Python slice l[a : a+b] is drop a, take b. -/
theorem pySlice_nonneg {α : Type} (l : List α) (a b : Int)
    (ha : 0 ≤ a) (hb : 0 ≤ b) :
    pySlice l a (a + b) = (l.drop a.toNat).take b.toNat := by
  unfold pySlice sliceBound
  rw [if_neg (by omega), if_neg (by omega), Int.toNat_add ha hb]
  exact slice_take_drop l a.toNat b.toNat

/-- The lexicographic comparison is total. -/
theorem lexLe_total : ∀ (as bs : List Char), (lexLe as bs || lexLe bs as) = true := by
  intro as
  induction as with
  | nil => intro bs; simp [lexLe]
  | cons a as1 ih =>
      intro bs
      cases bs with
      | nil => simp [lexLe]
      | cons b bs1 =>
          by_cases hab : a < b
          · simp [lexLe, hab]
          · by_cases hba : b < a
            · simp [lexLe, hab, hba, asymm hba]
            · simp [lexLe, hab, hba, ih bs1]

/-- The lexicographic comparison is transitive. -/
theorem lexLe_trans : ∀ (as bs cs : List Char),
    lexLe as bs = true → lexLe bs cs = true → lexLe as cs = true := by
  intro as
  induction as with
  | nil => intro bs cs h1 h2; simp [lexLe]
  | cons a as1 ih =>
      intro bs cs h1 h2
      cases bs with
      | nil => simp [lexLe] at h1
      | cons b bs1 =>
          cases cs with
          | nil => simp [lexLe] at h2
          | cons c cs1 =>
              by_cases hab : a < b
              · by_cases hbc : b < c
                · simp [lexLe, lt_trans hab hbc]
                · by_cases hcb : c < b
                  · simp [lexLe, hbc, hcb] at h2
                  · have hbc1 : b = c := le_antisymm (not_lt.mp hcb) (not_lt.mp hbc)
                    subst hbc1
                    simp [lexLe, hab]
              · by_cases hba : b < a
                · simp [lexLe, hab, hba] at h1
                · have hab1 : a = b := le_antisymm (not_lt.mp hba) (not_lt.mp hab)
                  subst hab1
                  simp only [lexLe, if_neg hab, if_neg hba] at h1
                  by_cases hbc : a < c
                  · simp [lexLe, hbc]
                  · by_cases hcb : c < a
                    · simp [lexLe, hbc, hcb] at h2
                    · simp only [lexLe, if_neg hbc, if_neg hcb] at h2 ⊢
                      exact ih bs1 cs1 h1 h2

/-- The sort comparison is transitive for either sort order. -/
theorem tsLe_trans (ord : String) (a b c : Fields)
    (h1 : tsLe ord a b = true) (h2 : tsLe ord b c = true) : tsLe ord a c = true := by
  by_cases hd : ord = "desc"
  · simp only [tsLe, if_pos hd] at *
    exact lexLe_trans _ _ _ h2 h1
  · simp only [tsLe, if_neg hd] at *
    exact lexLe_trans _ _ _ h1 h2

/-- The sort comparison is total for either sort order. -/
theorem tsLe_total (ord : String) (a b : Fields) :
    (tsLe ord a b || tsLe ord b a) = true := by
  by_cases hd : ord = "desc" <;> simp only [tsLe, strLe, hd, ite_true,
    ite_false, reduceIte] <;> exact lexLe_total _ _

/-- C6: with sort_by = timestamp and nonnegative skip and limit,
list_registrations reports as total_count the number of completed records,
returns as page the [skip, skip+limit) drop/take slice of a sorted list that
is a permutation of the completed records' fields and is pairwise ordered by
the timestamp key (missing key sorting as the empty string, descending when
asked), yields an empty page when skip is at or past the end instead of
erroring, and on the concrete five-record store with skip = 2 and limit = 2
returns exactly the records at sorted indices 2 and 3 with total_count 5. -/
theorem list_registrations_spec :
    (∀ (mgr : ConversationManager) (skip limit : Int) (ord : String),
      0 ≤ skip → 0 ≤ limit →
      (list_registrations mgr skip limit "timestamp" ord).total_count =
        (completedRegs mgr).length ∧
      (list_registrations mgr skip limit "timestamp" ord).registrations =
        ((pySortByKey (completedRegs mgr) ord).drop skip.toNat).take limit.toNat ∧
      (pySortByKey (completedRegs mgr) ord).Perm (completedRegs mgr) ∧
      (pySortByKey (completedRegs mgr) ord).Pairwise
        (fun a b => tsLe ord a b = true) ∧
      ((completedRegs mgr).length ≤ skip.toNat →
        (list_registrations mgr skip limit "timestamp" ord).registrations = [])) ∧
    list_registrations exampleMgr 2 2 "timestamp" "asc" =
      { registrations := [exReg "P3" "t3", exReg "P4" "t4"], total_count := 5,
        skip := 2, limit := 2 } := by
  constructor
  · intro mgr skip limit ord hskip hlimit
    have hperm : (pySortByKey (completedRegs mgr) ord).Perm (completedRegs mgr) :=
      List.perm_insertionSort (fun a b => tsLe ord a b = true) (completedRegs mgr)
    have hlen : (pySortByKey (completedRegs mgr) ord).length =
        (completedRegs mgr).length := hperm.length_eq
    refine ⟨?_, ?_, hperm, ?_, ?_⟩
    · simp only [list_registrations, if_pos rfl, ite_true]
      exact hlen
    · simp only [list_registrations, if_pos rfl, ite_true]
      exact pySlice_nonneg _ skip limit hskip hlimit
    · exact @List.sorted_insertionSort _ (fun a b => tsLe ord a b = true) _
        ⟨fun a b => (Bool.or_eq_true _ _).mp (tsLe_total ord a b)⟩
        ⟨fun a b c h1 h2 => tsLe_trans ord a b c h1 h2⟩
        (completedRegs mgr)
    · intro hout
      simp only [list_registrations, if_pos rfl, ite_true]
      rw [pySlice_nonneg _ skip limit hskip hlimit,
        List.drop_of_length_le (by rw [hlen]; exact hout), List.take_nil]
  · rfl

/-- Witness for C6's universally quantified part at the concrete store with
skip = 2, limit = 2 and ascending timestamp order. -/
theorem list_registrations_spec_witness :
    (list_registrations exampleMgr 2 2 "timestamp" "asc").total_count =
      (completedRegs exampleMgr).length ∧
    (list_registrations exampleMgr 2 2 "timestamp" "asc").registrations =
      ((pySortByKey (completedRegs exampleMgr) "asc").drop (Int.toNat 2)).take
        (Int.toNat 2) ∧
    (pySortByKey (completedRegs exampleMgr) "asc").Perm
      (completedRegs exampleMgr) ∧
    (pySortByKey (completedRegs exampleMgr) "asc").Pairwise
      (fun a b => tsLe "asc" a b = true) ∧
    ((completedRegs exampleMgr).length ≤ Int.toNat 2 →
      (list_registrations exampleMgr 2 2 "timestamp" "asc").registrations = []) :=
  list_registrations_spec.1 exampleMgr 2 2 "asc" (by decide) (by decide)

/-- C5: in the Variant A engine, every successful Advance (an ok result with
no error) moves along exactly one edge of the linear graph start → name →
email → phone → age_group → meditation_experience → confirmation →
completed/cancelled — never skipping a step and never succeeding from a
terminal or unknown state — and the concrete run on the spec's example inputs
traverses precisely that path to completed. -/
theorem variantA_linear_traversal :
    (∀ (now : String) (conv : Conversation) (input : Option String)
      (r : StepResponse),
      (variantA_process_step now conv input).result = .ok r → r.error = none →
      ((conv.current_step = "start" ∧
          (variantA_process_step now conv input).conv.current_step = "name") ∨
       (conv.current_step = "name" ∧
          (variantA_process_step now conv input).conv.current_step = "email") ∨
       (conv.current_step = "email" ∧
          (variantA_process_step now conv input).conv.current_step = "phone") ∨
       (conv.current_step = "phone" ∧
          (variantA_process_step now conv input).conv.current_step = "age_group") ∨
       (conv.current_step = "age_group" ∧
          (variantA_process_step now conv input).conv.current_step =
            "meditation_experience") ∨
       (conv.current_step = "meditation_experience" ∧
          (variantA_process_step now conv input).conv.current_step =
            "confirmation") ∨
       (conv.current_step = "confirmation" ∧
          ((variantA_process_step now conv input).conv.current_step = "completed" ∨
           (variantA_process_step now conv input).conv.current_step =
             "cancelled")))) ∧
    (List.range 8).map (fun j =>
        (runConvA "T" (freshConversation "a" "t")
          (variantAExampleInputs.take j)).current_step) =
      ["start", "name", "email", "phone", "age_group", "meditation_experience",
       "confirmation", "completed"] := by
  constructor
  · intro now conv input r hok herr
    by_cases h1 : conv.current_step = "start"
    · exact Or.inl ⟨h1, by simp [variantA_process_step, h1]⟩
    by_cases h2 : conv.current_step = "name"
    · refine Or.inr (Or.inl ⟨h2, ?_⟩)
      cases input with
      | none =>
          simp [variantA_process_step, h2] at hok
          rw [← hok] at herr; simp at herr
      | some s =>
          by_cases hv : 2 ≤ s.length
          · simp [variantA_process_step, h2, hv]
          · simp [variantA_process_step, h2, hv] at hok
            rw [← hok] at herr; simp at herr
    by_cases h3 : conv.current_step = "email"
    · refine Or.inr (Or.inr (Or.inl ⟨h3, ?_⟩))
      cases input with
      | none =>
          simp [variantA_process_step, h3] at hok
          rw [← hok] at herr; simp at herr
      | some s =>
          by_cases hv : validate_email s = true
          · simp [variantA_process_step, h3, hv]
          · simp [variantA_process_step, h3, hv] at hok
            rw [← hok] at herr; simp at herr
    by_cases h4 : conv.current_step = "phone"
    · refine Or.inr (Or.inr (Or.inr (Or.inl ⟨h4, ?_⟩)))
      cases input with
      | none =>
          simp [variantA_process_step, h4] at hok
          rw [← hok] at herr; simp at herr
      | some s =>
          by_cases hv : validate_phone s = true
          · simp [variantA_process_step, h4, hv]
          · simp [variantA_process_step, h4, hv] at hok
            rw [← hok] at herr; simp at herr
    by_cases h5 : conv.current_step = "age_group"
    · refine Or.inr (Or.inr (Or.inr (Or.inr (Or.inl ⟨h5, ?_⟩))))
      cases input with
      | none =>
          simp [variantA_process_step, h5] at hok
          rw [← hok] at herr; simp at herr
      | some s =>
          by_cases hv : s ∈ ageGroups
          · simp [variantA_process_step, h5, hv]
          · simp [variantA_process_step, h5, hv] at hok
            rw [← hok] at herr; simp at herr
    by_cases h6 : conv.current_step = "meditation_experience"
    · refine Or.inr (Or.inr (Or.inr (Or.inr (Or.inr (Or.inl ⟨h6, ?_⟩)))))
      cases input with
      | none =>
          simp [variantA_process_step, h6] at hok
          rw [← hok] at herr; simp at herr
      | some s =>
          by_cases hv : s ∈ variantA_process_step.meditationChoices
          · simp [variantA_process_step, h6, hv]
          · simp [variantA_process_step, h6, hv] at hok
            rw [← hok] at herr; simp at herr
    by_cases h7 : conv.current_step = "confirmation"
    · refine Or.inr (Or.inr (Or.inr (Or.inr (Or.inr (Or.inr ⟨h7, ?_⟩)))))
      cases input with
      | none =>
          simp [variantA_process_step, h7] at hok
          rw [← hok] at herr; simp at herr
      | some s =>
          by_cases hv : pyLower s = "yes" ∨ pyLower s = "y"
          · exact Or.inl (by simp [variantA_process_step, h7, hv])
          · exact Or.inr (by simp [variantA_process_step, h7, hv])
    exact absurd hok (by
      simp [variantA_process_step, h1, h2, h3, h4, h5, h6, h7])
  · rfl

/-- Witness for C5's universally quantified part: the first call on a fresh
Variant A record succeeds and moves start to name. -/
theorem variantA_linear_traversal_witness :
    (variantA_process_step "T" (freshConversation "a" "t") none).result =
      .ok { next_step := some "name",
            next_step_message := some "Enter your full name" } ∧
    ((freshConversation "a" "t").current_step = "start" ∧
      (variantA_process_step "T" (freshConversation "a" "t")
        none).conv.current_step = "name" ∨
     (freshConversation "a" "t").current_step = "name" ∧
      (variantA_process_step "T" (freshConversation "a" "t")
        none).conv.current_step = "email" ∨
     (freshConversation "a" "t").current_step = "email" ∧
      (variantA_process_step "T" (freshConversation "a" "t")
        none).conv.current_step = "phone" ∨
     (freshConversation "a" "t").current_step = "phone" ∧
      (variantA_process_step "T" (freshConversation "a" "t")
        none).conv.current_step = "age_group" ∨
     (freshConversation "a" "t").current_step = "age_group" ∧
      (variantA_process_step "T" (freshConversation "a" "t")
        none).conv.current_step = "meditation_experience" ∨
     (freshConversation "a" "t").current_step = "meditation_experience" ∧
      (variantA_process_step "T" (freshConversation "a" "t")
        none).conv.current_step = "confirmation" ∨
     (freshConversation "a" "t").current_step = "confirmation" ∧
      ((variantA_process_step "T" (freshConversation "a" "t")
          none).conv.current_step = "completed" ∨
       (variantA_process_step "T" (freshConversation "a" "t")
          none).conv.current_step = "cancelled")) :=
  ⟨rfl, variantA_linear_traversal.1 "T" (freshConversation "a" "t") none
    { next_step := some "name", next_step_message := some "Enter your full name" }
    rfl rfl⟩

/-- From any state in postTravelStates, one step stays in postTravelStates. -/
theorem post_closed (now : String) (conv : Conversation) (step : RegistrationStep)
    (hpost : conv.current_step ∈ postTravelStates) :
    (process_step now conv step).conv.current_step ∈ postTravelStates := by
  simp only [postTravelStates, List.mem_cons, List.not_mem_nil, or_false] at hpost ⊢
  rcases hpost with h | h | h | h | h | h <;>
    cases hin : step.user_input <;>
    simp [process_step, h, hin]
  all_goals (repeat' (first | split_ifs | split))
  all_goals simp_all

/-- No step of the chain writes the travel_requirements key from a state in
postTravelStates. -/
theorem post_keeps_key (now : String) (conv : Conversation)
    (step : RegistrationStep) (hpost : conv.current_step ∈ postTravelStates)
    (hkey : getKey conv.registration_data "travel_requirements" = none) :
    getKey (process_step now conv step).conv.registration_data
      "travel_requirements" = none := by
  simp only [postTravelStates, List.mem_cons, List.not_mem_nil, or_false] at hpost
  rcases hpost with h | h | h | h | h | h <;>
    cases hin : step.user_input <;>
    simp [process_step, h, hin]
  all_goals (repeat' (first | split_ifs | split))
  all_goals simp_all [getKey_setKey_ne]

/-- From a record without the travel_requirements key, one step either still
has no such key or has landed in postTravelStates (the only branch that
writes the key — travel_requirements_location on success — moves straight to
accommodation_confirmation). -/
theorem noKey_step (now : String) (conv : Conversation) (step : RegistrationStep)
    (hkey : getKey conv.registration_data "travel_requirements" = none) :
    getKey (process_step now conv step).conv.registration_data
      "travel_requirements" = none ∨
    (process_step now conv step).conv.current_step ∈ postTravelStates := by
  by_cases h1 : conv.current_step = "start"
  · exact Or.inl (by simp [process_step, h1, hkey])
  by_cases h2 : conv.current_step = "name"
  · cases hin : step.user_input <;>
      exact Or.inl (by
        simp [process_step, h2, hin]
        repeat' (first | split_ifs | split)
        all_goals simp_all [getKey_setKey_ne])
  by_cases h3 : conv.current_step = "email"
  · cases hin : step.user_input <;>
      exact Or.inl (by
        simp [process_step, h3, hin]
        repeat' (first | split_ifs | split)
        all_goals simp_all [getKey_setKey_ne])
  by_cases h4 : conv.current_step = "mobile"
  · cases hin : step.user_input <;>
      exact Or.inl (by
        simp [process_step, h4, hin]
        repeat' (first | split_ifs | split)
        all_goals simp_all [getKey_setKey_ne])
  by_cases h5 : conv.current_step = "age_group"
  · cases hin : step.user_input <;>
      exact Or.inl (by
        simp [process_step, h5, hin]
        repeat' (first | split_ifs | split)
        all_goals simp_all [getKey_setKey_ne])
  by_cases h6 : conv.current_step = "abhyasi_id"
  · cases hin : step.user_input <;>
      exact Or.inl (by
        simp [process_step, h6, hin]
        repeat' (first | split_ifs | split)
        all_goals simp_all [getKey_setKey_ne])
  by_cases h7 : conv.current_step = "arrival_date"
  · cases hin : step.user_input <;>
      exact Or.inl (by
        simp [process_step, h7, hin]
        repeat' (first | split_ifs | split)
        all_goals simp_all [getKey_setKey_ne])
  by_cases h8 : conv.current_step = "departure_date"
  · cases hin : step.user_input <;>
      exact Or.inl (by
        simp [process_step, h8, hin]
        repeat' (first | split_ifs | split)
        all_goals simp_all [getKey_setKey_ne])
  by_cases h9 : conv.current_step = "travel_requirements_confirmation"
  · cases hin : step.user_input <;>
      exact Or.inl (by
        simp [process_step, h9, hin, hkey]
        repeat' (first | split_ifs | split)
        all_goals simp_all)
  by_cases h10 : conv.current_step = "travel_requirements_mode"
  · cases hin : step.user_input <;>
      exact Or.inl (by
        simp [process_step, h10, hin, hkey]
        repeat' (first | split_ifs | split)
        all_goals simp_all)
  by_cases h11 : conv.current_step = "travel_requirements_location"
  · cases hin : step.user_input with
    | none => exact Or.inl (by simp [process_step, h11, hin, hkey])
    | some s =>
        by_cases hs : s = ""
        · exact Or.inl (by simp [process_step, h11, hin, hs, hkey])
        · cases htemp : conv.temp_travel_requirements with
          | none => exact Or.inl (by simp [process_step, h11, hin, hs, htemp, hkey])
          | some t =>
              exact Or.inr (by
                simp [process_step, h11, hin, hs, htemp, postTravelStates])
  by_cases h12 : conv.current_step = "accommodation_confirmation"
  · cases hin : step.user_input <;>
      exact Or.inl (by
        simp [process_step, h12, hin, hkey]
        repeat' (first | split_ifs | split)
        all_goals simp_all)
  by_cases h13 : conv.current_step = "accommodation_type"
  · cases hin : step.user_input <;>
      exact Or.inl (by
        simp [process_step, h13, hin, hkey]
        repeat' (first | split_ifs | split)
        all_goals simp_all)
  by_cases h14 : conv.current_step = "accommodation_people"
  · cases hin : step.user_input <;>
      exact Or.inl (by
        simp [process_step, h14, hin, hkey]
        repeat' (first | split_ifs | split)
        all_goals simp_all [getKey_setKey_ne])
  by_cases h15 : conv.current_step = "confirmation"
  · cases hin : step.user_input <;>
      exact Or.inl (by
        simp [process_step, h15, hin, hkey]
        repeat' (first | split_ifs | split)
        all_goals simp_all [getKey_setKey_ne])
  exact Or.inl (by
    simp [process_step, h1, h2, h3, h4, h5, h6, h7, h8, h9, h10, h11, h12, h13,
      h14, h15, hkey])

/-- Unfolding one call at the head of a run. -/
theorem runConv_cons (now : String) (c : Conversation) (st : RegistrationStep)
    (l : List RegistrationStep) :
    runConv now c (st :: l) = runConv now (process_step now c st).conv l := by
  simp [runConv]

/-- A run over a concatenation is the two runs in sequence. -/
theorem runConv_append (now : String) (c : Conversation)
    (l1 l2 : List RegistrationStep) :
    runConv now c (l1 ++ l2) = runConv now (runConv now c l1) l2 := by
  simp [runConv, List.foldl_append]

/-- Answering no or n at travel_requirements_confirmation moves the record
directly to accommodation_confirmation and leaves registration_data alone. -/
theorem travel_no_step (now : String) (conv : Conversation)
    (step : RegistrationStep) (s : String)
    (hst : conv.current_step = "travel_requirements_confirmation")
    (hin : step.user_input = some s)
    (hno : pyLower s = "no" ∨ pyLower s = "n") :
    (process_step now conv step).conv.current_step =
      "accommodation_confirmation" ∧
    (process_step now conv step).conv.registration_data =
      conv.registration_data := by
  rcases hno with h | h <;> simp [process_step, hst, hin, h]

/-- The disjunctive invariant (no travel key yet, or already past the branch)
is preserved along any run. -/
theorem K_run (now : String) (c : Conversation) (l : List RegistrationStep)
    (h : getKey c.registration_data "travel_requirements" = none ∨
      c.current_step ∈ postTravelStates) :
    getKey (runConv now c l).registration_data "travel_requirements" = none ∨
    (runConv now c l).current_step ∈ postTravelStates := by
  induction l generalizing c with
  | nil => simpa [runConv] using h
  | cons st l ih =>
      rw [runConv_cons]
      apply ih
      rcases h with h | h
      · exact noKey_step now c st h
      · exact Or.inr (post_closed now c st h)

/-- Once in postTravelStates, a run stays in postTravelStates. -/
theorem post_run_state (now : String) (c : Conversation)
    (l : List RegistrationStep) (h : c.current_step ∈ postTravelStates) :
    (runConv now c l).current_step ∈ postTravelStates := by
  induction l generalizing c with
  | nil => simpa [runConv] using h
  | cons st l ih =>
      rw [runConv_cons]
      exact ih _ (post_closed now c st h)

/-- Once past the travel branch with no travel key, a run keeps both facts. -/
theorem postNoKey_run (now : String) (c : Conversation)
    (l : List RegistrationStep) (hp : c.current_step ∈ postTravelStates)
    (hkey : getKey c.registration_data "travel_requirements" = none) :
    (runConv now c l).current_step ∈ postTravelStates ∧
    getKey (runConv now c l).registration_data "travel_requirements" = none := by
  induction l generalizing c with
  | nil => exact ⟨by simpa [runConv] using hp, by simpa [runConv] using hkey⟩
  | cons st l ih =>
      rw [runConv_cons]
      exact ih _ (post_closed now c st hp) (post_keeps_key now c st hp hkey)

/-- C4: in a run from a fresh record whose k-th call answers no (or n,
case-insensitively) while the record sits at
travel_requirements_confirmation, that call moves the record directly to
accommodation_confirmation — skipping the travel detail sub-steps — and at
every prefix of the run (before or after the branch) registration_data never
contains a travel_requirements key. -/
theorem travel_no_branch_skips_and_never_sets_key
    (now id ts : String) (steps : List RegistrationStep) (k : Nat)
    (hk : k < steps.length) (s : String)
    (hstate : (runConv now (freshConversation id ts) (steps.take k)).current_step
      = "travel_requirements_confirmation")
    (hinp : (steps.get ⟨k, hk⟩).user_input = some s)
    (hno : pyLower s = "no" ∨ pyLower s = "n") :
    (process_step now (runConv now (freshConversation id ts) (steps.take k))
        (steps.get ⟨k, hk⟩)).conv.current_step = "accommodation_confirmation" ∧
    ∀ j : Nat, getKey (runConv now (freshConversation id ts)
        (steps.take j)).registration_data "travel_requirements" = none := by
  have hfresh : getKey (freshConversation id ts).registration_data
      "travel_requirements" = none := rfl
  have hNoKeyUpTo : ∀ j, j ≤ k →
      getKey (runConv now (freshConversation id ts)
        (steps.take j)).registration_data "travel_requirements" = none := by
    intro j hjk
    rcases K_run now _ (steps.take j) (Or.inl hfresh) with h | h
    · exact h
    · exfalso
      have hsplit : steps.take k = steps.take j ++ (steps.drop j).take (k - j) := by
        have hkj : j + (k - j) = k := Nat.add_sub_cancel' hjk
        conv_lhs => rw [← hkj]
        rw [take_add_split]
      have hpostk : (runConv now (freshConversation id ts)
          (steps.take k)).current_step ∈ postTravelStates := by
        rw [hsplit, runConv_append]
        exact post_run_state now _ _ h
      rw [hstate] at hpostk
      simp [postTravelStates] at hpostk
  have hNoKeyK := hNoKeyUpTo k (le_refl k)
  have hstepk := travel_no_step now _ (steps.get ⟨k, hk⟩) s hstate hinp hno
  refine ⟨hstepk.1, ?_⟩
  intro j
  rcases le_or_lt j k with hjk | hkj
  · exact hNoKeyUpTo j hjk
  · have htake : steps.take (k + 1) = steps.take k ++ [steps.get ⟨k, hk⟩] := by
      rw [List.take_succ]
      congr 1
      rw [List.getElem?_eq_getElem hk]
      simp [List.get_eq_getElem]
    have hck1 : runConv now (freshConversation id ts) (steps.take (k + 1)) =
        (process_step now (runConv now (freshConversation id ts) (steps.take k))
          (steps.get ⟨k, hk⟩)).conv := by
      rw [htake, runConv_append]
      simp [runConv]
    have hpost1 : (runConv now (freshConversation id ts)
        (steps.take (k + 1))).current_step ∈ postTravelStates := by
      rw [hck1, hstepk.1]
      simp [postTravelStates]
    have hkey1 : getKey (runConv now (freshConversation id ts)
        (steps.take (k + 1))).registration_data "travel_requirements" = none := by
      rw [hck1, hstepk.2]
      exact hNoKeyK
    have hsplit : steps.take j =
        steps.take (k + 1) ++ (steps.drop (k + 1)).take (j - (k + 1)) := by
      have hkj1 : (k + 1) + (j - (k + 1)) = j := Nat.add_sub_cancel' hkj
      conv_lhs => rw [← hkj1]
      rw [take_add_split]
    rw [hsplit, runConv_append]
    exact (postNoKey_run now _ _ hpost1 hkey1).2

/-- Witness for C4 on the concrete run: the no answer at index 8 jumps to
accommodation_confirmation and no prefix of the run ever has the
travel_requirements key. -/
theorem travel_no_branch_skips_and_never_sets_key_witness :
    (process_step "T" (runConv "T" (freshConversation "w" "t")
        (exTravelSteps.take 8))
        (exTravelSteps.get ⟨8, by decide⟩)).conv.current_step =
      "accommodation_confirmation" ∧
    ∀ j : Nat, getKey (runConv "T" (freshConversation "w" "t")
        (exTravelSteps.take j)).registration_data "travel_requirements" = none :=
  travel_no_branch_skips_and_never_sets_key "T" "w" "t" exTravelSteps 8
    (by decide) "no" (by decide) (by decide) (Or.inl (by decide))

/-- Witness for C9: on a one-record store, two /process requests that differ
only in their client-supplied current_step field produce identical outcomes. -/
theorem advance_ignores_client_current_step_witness :
    process_registration_step "T" ⟨[convEmail]⟩ ⟨"id1", "email", some "a@b.com"⟩ =
    process_registration_step "T" ⟨[convEmail]⟩ ⟨"id1", "HACKED", some "a@b.com"⟩ :=
  advance_ignores_client_current_step "T" ⟨[convEmail]⟩
    ⟨"id1", "email", some "a@b.com"⟩ ⟨"id1", "HACKED", some "a@b.com"⟩ rfl rfl

/-- Witness for C10's step-level conjunct at a concrete record sitting at
accommodation_people with its transient accommodation dict present. -/
theorem count_validator_range_characterisation_witness :
    ((process_step "T"
        ⟨"id3", "t", [], "accommodation_people", [], none,
          some [("type", Value.str "Dormitory")]⟩
        ⟨"id3", "accommodation_people", some "5"⟩).conv.current_step =
      "confirmation") ↔ validCount 1 10 "5" = true :=
  count_validator_range_characterisation.2.1 "T"
    ⟨"id3", "t", [], "accommodation_people", [], none,
      some [("type", Value.str "Dormitory")]⟩
    ⟨"id3", "accommodation_people", some "5"⟩ "5"
    [("type", Value.str "Dormitory")] rfl rfl rfl
